import Mathlib

/-!
Verification of the resolver/connector core of `src/crates/actix/src/actors/resolver.rs`.

The development shallowly embeds the two state machines of the module:
`ResolveFut` (host-spec resolution with literal-address short-circuiting) and
`TcpConnector` (deadline-bounded sequential connection racing), together with
the three message handlers of the `Resolver` service.

External collaborators are modelled as parameters:
  - literal socket-address parsing (Rust `str::parse::<SocketAddr>`) is a
    parameter `psa : String → Option SocketAddr`;
  - the DNS backend (`AsyncResolver::lookup_ip` polled through
    `BackgroundLookupIp`) is a parameter `backend : String → LookupPoll`;
  - a pending TCP connect (`tokio ConnectFuture`) polls to an `AttemptPoll`
    given by a parameter `f : SocketAddr → AttemptPoll`;
  - the timer (`tokio_timer::Delay`) is ready exactly when the current instant
    has reached the deadline, instants being naturals.
Machine-level panics (`Option::unwrap` on `None`) are modelled explicitly as a
`panicked` poll outcome.
-/

/-- An IP address, opaque to this module (resolver.rs never inspects one). -/
abbrev IpAddr := Nat

/-- A connected TCP stream, opaque to this module. -/
abbrev TcpStream := Nat

/-- An underlying transport `io::Error`, opaque to this module. -/
abbrev IoErr := Nat

/-- `std::net::SocketAddr`: an IP address together with a port.
`SocketAddr::new(ip, port)` is the anonymous constructor. -/
structure SocketAddr where
  ip : IpAddr
  port : Nat
deriving DecidableEq, Repr

/-- The `ResolverError` enum of resolver.rs (lines 135-152). `Resolver` is the
spec's `ResolutionFailed(detail)`, `IoError` the spec's
`ConnectionFailed(underlying)`. -/
inductive ResolverError
  | Resolver (msg : String)
  | InvalidInput (msg : String)
  | Timeout
  | IoError (e : IoErr)
deriving DecidableEq, Repr

/-- Rust `str::parse::<u16>`: an optional leading plus sign, then one or more
decimal digits, value at most 65535. -/
def parseU16 (s : String) : Option Nat :=
  let cs := match s.data with
    | '+' :: rest => rest
    | cs => cs
  if cs = [] then none
  else if cs.all (fun c => c.isDigit) then
    let n := cs.foldl (fun acc c => acc * 10 + (c.toNat - 48)) 0
    if n ≤ 65535 then some n else none
  else none

/-- Splits a character list at the first occurrence of `sep`: the prefix
before it and, when it occurs, the whole remainder. -/
def splitCharsOnFirst (sep : Char) : List Char → List Char × Option (List Char)
  | [] => ([], none)
  | c :: cs =>
    if c = sep then ([], some cs)
    else
      let r := splitCharsOnFirst sep cs
      (c :: r.1, r.2)

/-- Rust `s.splitn(2, sep)` collected to a list: the part before the first
separator and, when a separator occurs, the whole remainder.  Always yields at
least one (possibly empty) part. -/
def splitn2 (s : String) (sep : Char) : List String :=
  match splitCharsOnFirst sep s.data with
  | (pre, none) => [String.mk pre]
  | (pre, some post) => [String.mk pre, String.mk post]

/-- The resolution future of resolver.rs (lines 274-281).  The pending
`BackgroundLookupIp` is represented by the host name it looks up. -/
structure ResolveFut where
  lookup : Option String
  port : Nat
  addrs : Option (List SocketAddr)
  error : Option ResolverError
  error2 : Option String
deriving DecidableEq, Repr

/-- `ResolveFut::parse` (lines 332-349): split the name on the first colon;
the trailing text, parsed as u16 when possible, otherwise the fallback port. -/
def ResolveFut.parse (addr : String) (port : Nat) :
    Except ResolverError (String × Nat) :=
  match splitn2 addr ':' with
  | [] => .error (.InvalidInput "invalid socket address")
  | host :: rest =>
    let port_str := rest.headD ""
    let p := (parseU16 port_str).getD port
    .ok (host, p)

/-- `ResolveFut::new` (lines 284-320): literal socket addresses short-circuit
to a ready single-element queue; otherwise split host and port and start a
backend lookup. `psa` models Rust `str::parse::<SocketAddr>`. -/
def ResolveFut.new (psa : String → Option SocketAddr) (addr : String)
    (port : Nat) : ResolveFut :=
  match psa addr with
  | some a =>
    { port, lookup := none, addrs := some [a], error := none, error2 := none }
  | none =>
    match ResolveFut.parse addr port with
    | .ok (host, port) =>
      { port, lookup := some host, addrs := none, error := none,
        error2 := none }
    | .error err =>
      { port, lookup := none, addrs := none, error := some err,
        error2 := none }

/-- `ResolveFut::err` (lines 322-330). -/
def ResolveFut.err (err : String) : ResolveFut :=
  { port := 0, lookup := none, addrs := none, error := none,
    error2 := some err }

/-- One poll of the backend lookup. -/
inductive LookupPoll
  | notReady
  | ready (ips : List IpAddr)
  | err (msg : String)
deriving DecidableEq, Repr

/-- Outcome of one poll of `ResolveFut`. `panicked` models the
`self.lookup.as_mut().unwrap()` on line 369 when `lookup` is `None`. -/
inductive ResolvePollResult
  | okReady (addrs : List SocketAddr)
  | okNotReady
  | errRes (e : ResolverError)
  | panicked
deriving DecidableEq, Repr

/-- `ResolveFut::poll` (lines 357-387): stored error, then service error, then
ready addresses, then the backend lookup; an empty backend answer is the
resolution failure of line 377. -/
def ResolveFut.poll (backend : String → LookupPoll) (f : ResolveFut) :
    ResolvePollResult :=
  match f.error with
  | some err => .errRes err
  | none =>
  match f.error2 with
  | some err => .errRes (.Resolver err)
  | none =>
  match f.addrs with
  | some addrs => .okReady addrs
  | none =>
  match f.lookup with
  | none => .panicked
  | some host =>
    match backend host with
    | .notReady => .okNotReady
    | .ready ips =>
      let addrs := ips.map (fun ip => SocketAddr.mk ip f.port)
      if addrs.isEmpty then
        .errRes (.Resolver "Expect at least one A dns record")
      else .okReady addrs
    | .err msg => .errRes (.Resolver msg)

/-- One poll of an in-flight TCP connect attempt. -/
inductive AttemptPoll
  | ready (s : TcpStream)
  | notReady
  | err (e : IoErr)
deriving DecidableEq, Repr

/-- Outcome of one poll of `TcpConnector`.  `panicked` models the
`self.addrs.pop_front().unwrap()` on line 441 when the queue is empty. -/
inductive ConnPollResult
  | okReady (s : TcpStream)
  | okNotReady
  | errRes (e : ResolverError)
  | panicked
deriving DecidableEq, Repr

/-- The `loop` of `TcpConnector::poll` (lines 427-443).  The in-flight
`ConnectFuture` is represented by the address it connects to; `f` gives the
poll outcome of the attempt on each address.  On attempt failure with a
non-empty queue the next address is popped and its attempt polled within the
same loop, with no delay between candidates. -/
def connectLoop (f : SocketAddr → AttemptPoll) :
    Option SocketAddr → List SocketAddr → ConnPollResult
  | some a, addrs =>
    match f a with
    | .ready s => .okReady s
    | .notReady => .okNotReady
    | .err e =>
      match addrs with
      | [] => .errRes (.IoError e)
      | b :: rest => connectLoop f (some b) rest
  | none, [] => .panicked
  | none, b :: rest => connectLoop f (some b) rest

/-- The TCP connector state (lines 390-395): remaining address queue, absolute
deadline instant, and the current in-flight attempt (by its address). -/
structure TcpConnector where
  addrs : List SocketAddr
  deadline : Nat
  stream : Option SocketAddr
deriving DecidableEq, Repr

/-- `TcpConnector::with_timeout` (lines 402-408): deadline is `now + timeout`
at construction. -/
def TcpConnector.with_timeout (addrs : List SocketAddr) (timeout now : Nat) :
    TcpConnector :=
  { addrs, stream := none, deadline := now + timeout }

/-- `TcpConnector::new` (lines 398-400): the default one-second timeout,
durations being measured in seconds here. -/
def TcpConnector.new (addrs : List SocketAddr) (now : Nat) : TcpConnector :=
  TcpConnector.with_timeout addrs 1 now

/-- `TcpConnector::poll` (lines 416-444): the deadline is checked first — a
`Delay` is ready exactly when `now` has reached it — and only then is the
connect loop entered. -/
def TcpConnector.poll (now : Nat) (f : SocketAddr → AttemptPoll)
    (c : TcpConnector) : ConnPollResult :=
  if c.deadline ≤ now then .errRes .Timeout
  else connectLoop f c.stream c.addrs

/-- The `Resolver` service state (lines 158-162): whether the backend handle
has been initialized, and the recorded initialization error. -/
structure Resolver where
  resolver : Option Unit
  err : Option String
deriving DecidableEq, Repr

/-- `Handler<Resolve>` (lines 232-246): a recorded error short-circuits;
otherwise resolution starts with fallback port `port.getD 0`.  `none` models
the panic of `self.resolver.as_ref().unwrap()` when the handle is absent. -/
def Resolver.handleResolve (psa : String → Option SocketAddr) (svc : Resolver)
    (name : String) (port : Option Nat) : Option ResolveFut :=
  match svc.err with
  | some e => some (ResolveFut.err e)
  | none =>
    match svc.resolver with
    | some _ => some (ResolveFut.new psa name (port.getD 0))
    | none => none

/-- The resolve-then-race pipeline built by `Handler<Connect>`. -/
structure ConnectPipeline where
  resolve : ResolveFut
  timeout : Nat
deriving DecidableEq, Repr

/-- `Handler<Connect>` (lines 248-262): always starts resolution (the recorded
error is not consulted), chaining a `TcpConnector` with the request timeout.
`none` models the panic of `self.resolver.as_ref().unwrap()`. -/
def Resolver.handleConnect (psa : String → Option SocketAddr) (svc : Resolver)
    (name : String) (port : Option Nat) (timeout : Nat) :
    Option ConnectPipeline :=
  match svc.resolver with
  | some _ =>
    some { resolve := ResolveFut.new psa name (port.getD 0), timeout }
  | none => none

/-- `Handler<ConnectAddr>` (lines 264-272): a single-element queue raced with
the default timeout; neither the recorded error nor the handle is consulted. -/
def Resolver.handleConnectAddr (_svc : Resolver) (a : SocketAddr) (now : Nat) :
    TcpConnector :=
  TcpConnector.new [a] now

/-! ## Helper lemmas -/

/-- Concrete literal-address parser used by witnesses: recognizes only the
string "127.0.0.1:8080". -/
def litParse : String → Option SocketAddr :=
  fun s => if s = "127.0.0.1:8080" then some (SocketAddr.mk 1 8080) else none

/-- Concrete non-literal parser used by witnesses: no string is a literal. -/
def noLit : String → Option SocketAddr := fun _ => none

/-- A service state with a recorded initialization error, for witnesses. -/
def svcErr : Resolver := { resolver := some (), err := some "boom" }

theorem splitn2_shape (s : String) (sep : Char) :
    ∃ host rest, splitn2 s sep = host :: rest := by
  simp only [splitn2]
  cases h : splitCharsOnFirst sep s.data with
  | mk pre r =>
    cases r with
    | none => exact ⟨_, _, rfl⟩
    | some post => exact ⟨_, _, rfl⟩

theorem ResolveFut.new_not_literal (psa : String → Option SocketAddr)
    (name : String) (port : Nat) (host : String) (rest : List String)
    (hpsa : psa name = none) (hsplit : splitn2 name ':' = host :: rest) :
    ResolveFut.new psa name port =
      { port := (parseU16 (rest.headD "")).getD port, lookup := some host,
        addrs := none, error := none, error2 := none } := by
  unfold ResolveFut.new ResolveFut.parse
  rw [hpsa, hsplit]

theorem ResolveFut.poll_new_ready (psa : String → Option SocketAddr)
    (name host : String) (port : Nat) (rest : List String)
    (backend : String → LookupPoll) (ips : List IpAddr)
    (hpsa : psa name = none) (hsplit : splitn2 name ':' = host :: rest)
    (hb : backend host = .ready ips) (hne : ips ≠ []) :
    ResolveFut.poll backend (ResolveFut.new psa name port) =
      .okReady (ips.map fun ip =>
        SocketAddr.mk ip ((parseU16 (rest.headD "")).getD port)) := by
  rw [ResolveFut.new_not_literal psa name port host rest hpsa hsplit]
  simp only [ResolveFut.poll, hb]
  cases ips with
  | nil => exact absurd rfl hne
  | cons i tl => simp

/-! ## Claim theorems -/

/-- C9: for every input string and fallback port, `ResolveFut::parse` returns
`Ok`: splitting on a colon always yields at least one part, so the
`InvalidInput` branch is unreachable, and consequently `ResolveFut::new` never
records a parse error for a non-literal host spec. -/
theorem parse_never_fails (addr : String) (port : Nat) :
    (∃ host p, ResolveFut.parse addr port = .ok (host, p)) ∧
    ∀ psa : String → Option SocketAddr,
      (ResolveFut.new psa addr port).error = none := by
  obtain ⟨host, rest, hs⟩ := splitn2_shape addr ':'
  constructor
  · refine ⟨host, (parseU16 (rest.headD "")).getD port, ?_⟩
    unfold ResolveFut.parse
    rw [hs]
  · intro psa
    cases hp : psa addr with
    | some a =>
      unfold ResolveFut.new
      rw [hp]
    | none =>
      rw [ResolveFut.new_not_literal psa addr port host rest hp hs]

/-- C1: a host spec whose name parses as a complete literal socket address
short-circuits: the backend lookup is never started (`lookup = none`) and
every poll returns the single-element queue holding exactly that address,
whatever the request's separate port field and whatever the backend would
answer. -/
theorem literal_short_circuit (psa : String → Option SocketAddr)
    (name : String) (port : Nat) (a : SocketAddr) (h : psa name = some a) :
    (ResolveFut.new psa name port).lookup = none ∧
    ∀ backend : String → LookupPoll,
      ResolveFut.poll backend (ResolveFut.new psa name port) =
        .okReady [a] := by
  unfold ResolveFut.new
  rw [h]
  exact ⟨rfl, fun backend => rfl⟩

theorem literal_short_circuit_witness :
    litParse "127.0.0.1:8080" = some (SocketAddr.mk 1 8080) ∧
    (ResolveFut.new litParse "127.0.0.1:8080" 42).lookup = none ∧
    ResolveFut.poll (fun _ => LookupPoll.notReady)
      (ResolveFut.new litParse "127.0.0.1:8080" 42) =
      .okReady [SocketAddr.mk 1 8080] :=
  ⟨by decide,
   (literal_short_circuit litParse "127.0.0.1:8080" 42 (SocketAddr.mk 1 8080)
     (by decide)).1,
   (literal_short_circuit litParse "127.0.0.1:8080" 42 (SocketAddr.mk 1 8080)
     (by decide)).2 (fun _ => LookupPoll.notReady)⟩

/-- C2: on every poll of the connection race the deadline is checked before
the in-flight attempt: once the current instant has reached the deadline —
the exact boundary included — the poll returns `Timeout`, whatever the
in-flight attempt would report and whatever addresses remain queued. -/
theorem deadline_checked_first (now : Nat) (f : SocketAddr → AttemptPoll)
    (c : TcpConnector) (h : c.deadline ≤ now) :
    TcpConnector.poll now f c = .errRes .Timeout := by
  unfold TcpConnector.poll
  rw [if_pos h]

theorem deadline_checked_first_witness :
    ({ addrs := [SocketAddr.mk 2 80], deadline := 5,
       stream := some (SocketAddr.mk 1 80) } : TcpConnector).deadline ≤ 5 ∧
    TcpConnector.poll 5 (fun _ => AttemptPoll.ready 0)
      { addrs := [SocketAddr.mk 2 80], deadline := 5,
        stream := some (SocketAddr.mk 1 80) } = .errRes .Timeout :=
  ⟨by decide,
   deadline_checked_first 5 (fun _ => AttemptPoll.ready 0)
     { addrs := [SocketAddr.mk 2 80], deadline := 5,
       stream := some (SocketAddr.mk 1 80) } (by decide)⟩

theorem connectLoop_none_nil (f : SocketAddr → AttemptPoll) :
    connectLoop f none [] = .panicked := rfl

theorem connectLoop_none_cons (f : SocketAddr → AttemptPoll)
    (b : SocketAddr) (rest : List SocketAddr) :
    connectLoop f none (b :: rest) = connectLoop f (some b) rest := rfl

theorem connectLoop_all_fail (f : SocketAddr → AttemptPoll)
    (ef : SocketAddr → IoErr) :
    ∀ (l : List SocketAddr) (a : SocketAddr),
      (∀ x ∈ a :: l, f x = .err (ef x)) →
      connectLoop f (some a) l = .errRes (.IoError (ef (l.getLastD a)))
  | [], a, h => by
    have ha := h a (by simp)
    rw [connectLoop.eq_1, ha]
    rfl
  | b :: rest, a, h => by
    have ha := h a (by simp)
    have ih := connectLoop_all_fail f ef rest b
      (fun x hx => h x (by simp at hx ⊢; tauto))
    rw [connectLoop.eq_1, ha, List.getLastD_cons]
    exact ih

/-- C3: when the race starts on a non-empty queue, the deadline has not
elapsed, and every candidate's attempt fails, a single poll walks the whole
queue — each next candidate is attempted immediately within the same loop,
with no delay between candidates — and returns `IoError` wrapping exactly the
last candidate's underlying error; errors of earlier candidates do not appear
in the result. -/
theorem all_attempts_fail (now deadline : Nat)
    (f : SocketAddr → AttemptPoll) (ef : SocketAddr → IoErr)
    (a : SocketAddr) (rest : List SocketAddr)
    (hd : ¬ deadline ≤ now)
    (hf : ∀ x ∈ a :: rest, f x = .err (ef x)) :
    TcpConnector.poll now f
      { addrs := a :: rest, deadline := deadline, stream := none } =
      .errRes (.IoError (ef (rest.getLastD a))) := by
  unfold TcpConnector.poll
  rw [if_neg hd]
  rw [connectLoop_none_cons]
  exact connectLoop_all_fail f ef rest a hf

theorem all_attempts_fail_witness :
    (¬ (10 : Nat) ≤ 0) ∧
    TcpConnector.poll 0 (fun x => AttemptPoll.err x.ip)
      { addrs := [SocketAddr.mk 1 80, SocketAddr.mk 2 80], deadline := 10,
        stream := none } = .errRes (.IoError 2) :=
  ⟨by decide,
   all_attempts_fail 0 10 (fun x => AttemptPoll.err x.ip) (fun x => x.ip)
     (SocketAddr.mk 1 80) [SocketAddr.mk 2 80] (by decide)
     (fun x _ => rfl)⟩

set_option maxRecDepth 4000 in
/-- C4 counterexample: for the non-literal host spec "example" with fallback
port 80 and a backend that succeeds with zero addresses, the poll fails with
the detail string "Expect at least one A dns record", not with the spec's
detail "no address records". -/
theorem empty_lookup_msg_cex :
    ResolveFut.poll (fun _ => LookupPoll.ready [])
      (ResolveFut.new noLit "example" 80) =
      .errRes (.Resolver "Expect at least one A dns record") ∧
    ResolveFut.poll (fun _ => LookupPoll.ready [])
      (ResolveFut.new noLit "example" 80) ≠
      .errRes (.Resolver "no address records") := by
  constructor <;> decide

/-- C4 amended: when the backend lookup succeeds with zero IP addresses,
resolution fails with the `Resolver` (resolution-failed) error carrying the
detail "Expect at least one A dns record"; and no resolution poll ever
returns an empty-but-successful address queue. -/
theorem empty_lookup_fails (psa : String → Option SocketAddr)
    (name host : String) (port : Nat) (rest : List String)
    (backend : String → LookupPoll)
    (hpsa : psa name = none) (hsplit : splitn2 name ':' = host :: rest)
    (hb : backend host = .ready []) :
    ResolveFut.poll backend (ResolveFut.new psa name port) =
      .errRes (.Resolver "Expect at least one A dns record") ∧
    ∀ (psa2 : String → Option SocketAddr) (n2 : String) (p2 : Nat)
      (b2 : String → LookupPoll),
      ResolveFut.poll b2 (ResolveFut.new psa2 n2 p2) ≠ .okReady [] := by
  constructor
  · rw [ResolveFut.new_not_literal psa name port host rest hpsa hsplit]
    simp [ResolveFut.poll, hb]
  · intro psa2 n2 p2 b2
    cases hp : psa2 n2 with
    | some a =>
      unfold ResolveFut.new
      rw [hp]
      simp [ResolveFut.poll]
    | none =>
      obtain ⟨h2, r2, hs2⟩ := splitn2_shape n2 ':'
      rw [ResolveFut.new_not_literal psa2 n2 p2 h2 r2 hp hs2]
      simp only [ResolveFut.poll]
      cases b2 h2 with
      | notReady => simp
      | ready ips =>
        cases ips with
        | nil => simp
        | cons i tl => simp
      | err m => simp

theorem empty_lookup_fails_witness :
    noLit "example" = none ∧
    splitn2 "example" ':' = ["example"] ∧
    (fun _ : String => LookupPoll.ready []) "example" = .ready [] ∧
    ResolveFut.poll (fun _ => LookupPoll.ready [])
      (ResolveFut.new noLit "example" 80) =
      .errRes (.Resolver "Expect at least one A dns record") :=
  ⟨rfl, by decide, rfl,
   (empty_lookup_fails noLit "example" "example" 80 []
     (fun _ => LookupPoll.ready []) rfl (by decide) rfl).1⟩

/-- C5: for a non-literal host spec whose name splits into a host part and a
trailing port text that fails to parse as a port number, resolution proceeds
with the request's fallback port as the effective port: the built future
records no error, starts a lookup of the host part, and carries the fallback
port. -/
theorem malformed_port_falls_back (psa : String → Option SocketAddr)
    (name host portText : String) (fallback : Nat)
    (hpsa : psa name = none)
    (hsplit : splitn2 name ':' = [host, portText])
    (hbad : parseU16 portText = none) :
    (ResolveFut.new psa name fallback).error = none ∧
    (ResolveFut.new psa name fallback).error2 = none ∧
    (ResolveFut.new psa name fallback).lookup = some host ∧
    (ResolveFut.new psa name fallback).port = fallback := by
  rw [ResolveFut.new_not_literal psa name fallback host [portText] hpsa hsplit]
  simp [hbad]

theorem malformed_port_falls_back_witness :
    noLit "host:abc" = none ∧
    splitn2 "host:abc" ':' = ["host", "abc"] ∧
    parseU16 "abc" = none ∧
    (ResolveFut.new noLit "host:abc" 7).error = none ∧
    (ResolveFut.new noLit "host:abc" 7).lookup = some "host" ∧
    (ResolveFut.new noLit "host:abc" 7).port = 7 :=
  ⟨rfl, by decide, by decide,
   (malformed_port_falls_back noLit "host:abc" "host" "abc" 7 rfl (by decide)
     (by decide)).1,
   (malformed_port_falls_back noLit "host:abc" "host" "abc" 7 rfl (by decide)
     (by decide)).2.2.1,
   (malformed_port_falls_back noLit "host:abc" "host" "abc" 7 rfl (by decide)
     (by decide)).2.2.2⟩

/-- C6: for a non-literal host spec, when the backend lookup succeeds with a
non-empty list of IPs, the poll returns the queue obtained by pairing every
returned IP with the same effective port, in exactly the backend's order —
the effective port being the parsed trailing port text when it parses, the
fallback port otherwise. -/
theorem backend_order_preserved (psa : String → Option SocketAddr)
    (name host : String) (port : Nat) (rest : List String)
    (backend : String → LookupPoll) (ips : List IpAddr)
    (hpsa : psa name = none) (hsplit : splitn2 name ':' = host :: rest)
    (hb : backend host = .ready ips) (hne : ips ≠ []) :
    ResolveFut.poll backend (ResolveFut.new psa name port) =
      .okReady (ips.map fun ip =>
        SocketAddr.mk ip ((parseU16 (rest.headD "")).getD port)) :=
  ResolveFut.poll_new_ready psa name host port rest backend ips hpsa hsplit
    hb hne

theorem backend_order_preserved_witness :
    noLit "example:80" = none ∧
    splitn2 "example:80" ':' = ["example", "80"] ∧
    ResolveFut.poll (fun _ => LookupPoll.ready [1, 2])
      (ResolveFut.new noLit "example:80" 0) =
      .okReady [SocketAddr.mk 1 80, SocketAddr.mk 2 80] :=
  ⟨rfl, by decide,
   backend_order_preserved noLit "example:80" "example" 0 ["80"]
     (fun _ => LookupPoll.ready [1, 2]) [1, 2] rfl (by decide) rfl
     (by decide)⟩

/-- C7 counterexample: the race entry point does not fail fast on an empty
queue: constructed on the empty queue and polled before the deadline, the
connector hits the unchecked `pop_front().unwrap()` and panics, instead of
returning a structured `InvalidInput` error. -/
theorem empty_queue_cex :
    TcpConnector.poll 0 (fun _ => AttemptPoll.notReady)
      (TcpConnector.new [] 0) = .panicked := by
  decide

/-- C7 amended: started with an empty address queue, the connection race does
not fail fast with a structured error: any poll before the deadline reaches
the unchecked unwrap of the empty queue and panics (only an already-elapsed
deadline avoids this, yielding `Timeout`). -/
theorem empty_queue_panics (now timeout : Nat)
    (f : SocketAddr → AttemptPoll)
    (h : ¬ (TcpConnector.with_timeout [] timeout now).deadline ≤ now) :
    TcpConnector.poll now f (TcpConnector.with_timeout [] timeout now) =
      .panicked := by
  unfold TcpConnector.poll
  rw [if_neg h]
  exact connectLoop_none_nil f

theorem empty_queue_panics_witness :
    (¬ (TcpConnector.with_timeout [] 1 0).deadline ≤ 0) ∧
    TcpConnector.poll 0 (fun _ => AttemptPoll.notReady)
      (TcpConnector.with_timeout [] 1 0) = .panicked :=
  ⟨by decide,
   empty_queue_panics 0 1 (fun _ => AttemptPoll.notReady) (by decide)⟩

set_option maxRecDepth 4000 in
/-- C8 counterexample: with a recorded initialization error "boom", the
connect handler still starts resolution (the built future looks up "example"
and polls to not-ready, not to the recorded error), and the
connect-to-address handler polls its connection attempt — neither fails
immediately with the recorded error. -/
theorem recorded_err_cex :
    svcErr.err = some "boom" ∧
    Resolver.handleConnect noLit svcErr "example" none 1 =
      some { resolve := ResolveFut.new noLit "example" 0, timeout := 1 } ∧
    (ResolveFut.new noLit "example" 0).lookup = some "example" ∧
    ResolveFut.poll (fun _ => LookupPoll.notReady)
      (ResolveFut.new noLit "example" 0) = .okNotReady ∧
    TcpConnector.poll 0 (fun _ => AttemptPoll.notReady)
      (Resolver.handleConnectAddr svcErr (SocketAddr.mk 1 80) 0) =
      .okNotReady := by
  refine ⟨rfl, ?_, ?_, ?_, ?_⟩ <;> decide

/-- C8 amended: only the resolve request checks the recorded initialization
error — it then fails immediately with that error, with no lookup started —
while the connect and connect-to-address handlers do not consult the recorded
error at all: their results are identical with the error cleared. -/
theorem recorded_err_only_resolve (psa : String → Option SocketAddr)
    (svc : Resolver) (e : String) (name : String) (port : Option Nat)
    (timeout : Nat) (a : SocketAddr) (now : Nat)
    (backend : String → LookupPoll)
    (h : svc.err = some e) :
    Resolver.handleResolve psa svc name port = some (ResolveFut.err e) ∧
    ResolveFut.poll backend (ResolveFut.err e) = .errRes (.Resolver e) ∧
    (ResolveFut.err e).lookup = none ∧
    Resolver.handleConnect psa svc name port timeout =
      Resolver.handleConnect psa { svc with err := none } name port timeout ∧
    Resolver.handleConnectAddr svc a now =
      Resolver.handleConnectAddr { svc with err := none } a now := by
  refine ⟨?_, rfl, rfl, rfl, rfl⟩
  unfold Resolver.handleResolve
  rw [h]

theorem recorded_err_only_resolve_witness :
    svcErr.err = some "boom" ∧
    Resolver.handleResolve noLit svcErr "example" none =
      some (ResolveFut.err "boom") ∧
    ResolveFut.poll (fun _ => LookupPoll.notReady) (ResolveFut.err "boom") =
      .errRes (.Resolver "boom") :=
  ⟨rfl,
   (recorded_err_only_resolve noLit svcErr "boom" "example" none 1
     (SocketAddr.mk 1 80) 0 (fun _ => LookupPoll.notReady) rfl).1,
   (recorded_err_only_resolve noLit svcErr "boom" "example" none 1
     (SocketAddr.mk 1 80) 0 (fun _ => LookupPoll.notReady) rfl).2.1⟩

/-- C10: for a resolve or connect request whose port field is absent, whose
name is not a literal socket address, and whose trailing port text (empty
when no colon is present) does not parse as a port number, the handlers build
the resolution future with fallback port `0`: its effective port is `0`, and
a successful lookup pairs every returned IP with port `0`. -/
theorem absent_port_defaults_zero (psa : String → Option SocketAddr)
    (svc : Resolver) (name host : String) (rest : List String)
    (backend : String → LookupPoll) (ips : List IpAddr) (timeout : Nat)
    (hr : svc.resolver = some ()) (he : svc.err = none)
    (hpsa : psa name = none) (hsplit : splitn2 name ':' = host :: rest)
    (hbad : parseU16 (rest.headD "") = none)
    (hb : backend host = .ready ips) (hne : ips ≠ []) :
    Resolver.handleResolve psa svc name none =
      some (ResolveFut.new psa name 0) ∧
    Resolver.handleConnect psa svc name none timeout =
      some { resolve := ResolveFut.new psa name 0, timeout := timeout } ∧
    (ResolveFut.new psa name 0).port = 0 ∧
    ResolveFut.poll backend (ResolveFut.new psa name 0) =
      .okReady (ips.map fun ip => SocketAddr.mk ip 0) := by
  refine ⟨?_, ?_, ?_, ?_⟩
  · unfold Resolver.handleResolve
    rw [he, hr]
    rfl
  · unfold Resolver.handleConnect
    rw [hr]
    rfl
  · rw [ResolveFut.new_not_literal psa name 0 host rest hpsa hsplit]
    show (parseU16 (rest.headD "")).getD 0 = 0
    rw [hbad]
    rfl
  · have := ResolveFut.poll_new_ready psa name host 0 rest backend ips hpsa
      hsplit hb hne
    rw [this, hbad]
    rfl

theorem absent_port_defaults_zero_witness :
    ({ resolver := some (), err := none } : Resolver).resolver = some () ∧
    noLit "example" = none ∧
    splitn2 "example" ':' = ["example"] ∧
    parseU16 "" = none ∧
    Resolver.handleResolve noLit { resolver := some (), err := none }
      "example" none = some (ResolveFut.new noLit "example" 0) ∧
    ResolveFut.poll (fun _ => LookupPoll.ready [1, 2])
      (ResolveFut.new noLit "example" 0) =
      .okReady [SocketAddr.mk 1 0, SocketAddr.mk 2 0] :=
  ⟨rfl, rfl, by decide, by decide,
   (absent_port_defaults_zero noLit { resolver := some (), err := none }
     "example" "example" [] (fun _ => LookupPoll.ready [1, 2]) [1, 2] 1
     rfl rfl rfl (by decide) (by decide) rfl (by decide)).1,
   (absent_port_defaults_zero noLit { resolver := some (), err := none }
     "example" "example" [] (fun _ => LookupPoll.ready [1, 2]) [1, 2] 1
     rfl rfl rfl (by decide) (by decide) rfl (by decide)).2.2.2⟩
